import Mathlib

/-!
# NarcDetect: verification of the concentration/elimination model

A shallow embedding of the NARCDETECT v2 drug detection-time calculator
(the dual-matrix saliva/urine C implementation): the static reference
tables, route-parameter adjustment, dose-response conversion, multi-dose
accumulation, the detection-time solver, the ASCII curve renderer's
sampling and trailing analysis, the NMR spectrum synthesizer, and
drug/route name resolution.  C `float` arithmetic is modelled by exact
real arithmetic; a C `(int)` cast is modelled by truncation toward zero.
-/

namespace NarcDetect

/-- Drug identifiers, in the order of the C enum (codes 1..24). -/
inductive Drug
  | fentanyl
  | nitazenes
  | amphetamine
  | methamphetamine
  | dextroamphetamine
  | hydromorphone
  | oxycodone
  | morphine
  | hydrocodone
  | codeine
  | pethidine
  | barbiturates
  | benzodiazepines
  | alcohol
  | lsd
  | ketamine
  | mescaline
  | psilocybin
  | dmt
  | ghb
  | methaqualone
  | methadone
  | dextropropoxyphene
  | diamorphine
  deriving DecidableEq, Repr

/-- Route identifiers, in the order of the C enum (codes 1..11). -/
inductive Route
  | oral
  | intravenous
  | intramuscular
  | subcutaneous
  | intranasal
  | inhalation
  | sublingual
  | transdermal
  | rectal
  | buccal
  | topical
  deriving DecidableEq, Repr

/-- The numeric code of each drug in the C enum (`DRUG_FENTANYL = 1` ...
`DRUG_DIAMORPHINE = 24`); the source compares these codes to select
drug-class adjustment rules. -/
def Drug.code : Drug → ℕ
  | .fentanyl => 1
  | .nitazenes => 2
  | .amphetamine => 3
  | .methamphetamine => 4
  | .dextroamphetamine => 5
  | .hydromorphone => 6
  | .oxycodone => 7
  | .morphine => 8
  | .hydrocodone => 9
  | .codeine => 10
  | .pethidine => 11
  | .barbiturates => 12
  | .benzodiazepines => 13
  | .alcohol => 14
  | .lsd => 15
  | .ketamine => 16
  | .mescaline => 17
  | .psilocybin => 18
  | .dmt => 19
  | .ghb => 20
  | .methaqualone => 21
  | .methadone => 22
  | .dextropropoxyphene => 23
  | .diamorphine => 24

/-- Table column `drugs[d].halflife_saliva` from `initialize_drug_data`. -/
def Drug.halflifeSaliva : Drug → ℝ
  | .fentanyl => 7
  | .nitazenes => 8
  | .amphetamine => 8
  | .methamphetamine => 12
  | .dextroamphetamine => 9
  | .hydromorphone => 3
  | .oxycodone => 4.5
  | .morphine => 3.5
  | .hydrocodone => 4
  | .codeine => 3
  | .pethidine => 4
  | .barbiturates => 120
  | .benzodiazepines => 72
  | .alcohol => 1
  | .lsd => 5
  | .ketamine => 3.5
  | .mescaline => 8
  | .psilocybin => 3
  | .dmt => 0.5
  | .ghb => 1
  | .methaqualone => 36
  | .methadone => 48
  | .dextropropoxyphene => 18
  | .diamorphine => 8

/-- Table column `drugs[d].halflife_urine` from `initialize_drug_data`. -/
def Drug.halflifeUrine : Drug → ℝ
  | .fentanyl => 20
  | .nitazenes => 24
  | .amphetamine => 30
  | .methamphetamine => 36
  | .dextroamphetamine => 32
  | .hydromorphone => 11
  | .oxycodone => 19
  | .morphine => 15
  | .hydrocodone => 18
  | .codeine => 12
  | .pethidine => 16
  | .barbiturates => 240
  | .benzodiazepines => 168
  | .alcohol => 2
  | .lsd => 8
  | .ketamine => 14
  | .mescaline => 36
  | .psilocybin => 13
  | .dmt => 2
  | .ghb => 6
  | .methaqualone => 72
  | .methadone => 86
  | .dextropropoxyphene => 48
  | .diamorphine => 24

/-- Table column `drugs[d].cutoff_saliva` from `initialize_drug_data`. -/
def Drug.cutoffSaliva : Drug → ℝ
  | .fentanyl => 1
  | .nitazenes => 0.5
  | .amphetamine => 50
  | .methamphetamine => 50
  | .dextroamphetamine => 50
  | .hydromorphone => 1
  | .oxycodone => 5
  | .morphine => 10
  | .hydrocodone => 5
  | .codeine => 10
  | .pethidine => 25
  | .barbiturates => 50
  | .benzodiazepines => 10
  | .alcohol => 25
  | .lsd => 0.5
  | .ketamine => 25
  | .mescaline => 25
  | .psilocybin => 1
  | .dmt => 1
  | .ghb => 5
  | .methaqualone => 25
  | .methadone => 25
  | .dextropropoxyphene => 10
  | .diamorphine => 2

/-- Table column `drugs[d].cutoff_urine` from `initialize_drug_data`. -/
def Drug.cutoffUrine : Drug → ℝ
  | .fentanyl => 2
  | .nitazenes => 1
  | .amphetamine => 500
  | .methamphetamine => 500
  | .dextroamphetamine => 500
  | .hydromorphone => 10
  | .oxycodone => 100
  | .morphine => 300
  | .hydrocodone => 100
  | .codeine => 300
  | .pethidine => 200
  | .barbiturates => 200
  | .benzodiazepines => 200
  | .alcohol => 100
  | .lsd => 0.5
  | .ketamine => 100
  | .mescaline => 100
  | .psilocybin => 10
  | .dmt => 10
  | .ghb => 10
  | .methaqualone => 200
  | .methadone => 200
  | .dextropropoxyphene => 300
  | .diamorphine => 10

/-- Table column `drugs[d].dosing_interval` from `initialize_drug_data`. -/
def Drug.dosingInterval : Drug → ℝ
  | .fentanyl => 4
  | .nitazenes => 6
  | .amphetamine => 12
  | .methamphetamine => 8
  | .dextroamphetamine => 12
  | .hydromorphone => 4
  | .oxycodone => 6
  | .morphine => 4
  | .hydrocodone => 6
  | .codeine => 6
  | .pethidine => 6
  | .barbiturates => 24
  | .benzodiazepines => 24
  | .alcohol => 2
  | .lsd => 12
  | .ketamine => 4
  | .mescaline => 12
  | .psilocybin => 8
  | .dmt => 1
  | .ghb => 2
  | .methaqualone => 12
  | .methadone => 24
  | .dextropropoxyphene => 8
  | .diamorphine => 4

/-- Table column `routes[r].bioavailability` from `initialize_route_data`. -/
def Route.bioavailability : Route → ℝ
  | .oral => 0.7
  | .intravenous => 1
  | .intramuscular => 0.9
  | .subcutaneous => 0.8
  | .intranasal => 0.6
  | .inhalation => 0.9
  | .sublingual => 0.8
  | .transdermal => 0.9
  | .rectal => 0.7
  | .buccal => 0.75
  | .topical => 0.1

/-- Table column `routes[r].absorption_rate` from `initialize_route_data`. -/
def Route.absorptionRate : Route → ℝ
  | .oral => 1.5
  | .intravenous => 0.1
  | .intramuscular => 0.5
  | .subcutaneous => 0.8
  | .intranasal => 0.3
  | .inhalation => 0.1
  | .sublingual => 0.5
  | .transdermal => 4
  | .rectal => 1
  | .buccal => 0.8
  | .topical => 8

/-- Table column `routes[r].oral_factor` from `initialize_route_data`. -/
def Route.oralFactor : Route → ℝ
  | .oral => 0.01
  | .intravenous => 0.05
  | .intramuscular => 0.03
  | .subcutaneous => 0.025
  | .intranasal => 0.02
  | .inhalation => 0.04
  | .sublingual => 0.02
  | .transdermal => 0.015
  | .rectal => 0.015
  | .buccal => 0.025
  | .topical => 0.005

/-- The local mutable copy of `(bioavail, oral_fac, absorpt)` that
`adjust_route_parameters` rewrites. -/
structure RouteParams where
  bioavail : ℝ
  oralFac : ℝ
  absorpt : ℝ

/-- Positivity of an adjusted route-parameter triple. -/
def RouteParams.Pos (p : RouteParams) : Prop :=
  0 < p.bioavail ∧ 0 < p.oralFac ∧ 0 < p.absorpt

/-- Route parameters before adjustment: the raw table row for the route. -/
def baseParams (r : Route) : RouteParams :=
  ⟨r.bioavailability, r.oralFactor, r.absorptionRate⟩

/-- Alcohol block of `adjust_route_parameters`. -/
def adjustAlcohol (d : Drug) (r : Route) (p : RouteParams) : RouteParams :=
  if d = .alcohol then
    let p1 := if r = .intravenous ∨ r = .intramuscular ∨ r = .subcutaneous then
      { p with bioavail := p.bioavail * 0.1 } else p
    if r = .inhalation then { p1 with bioavail := 0.95, absorpt := 0.05 } else p1
  else p

/-- Fentanyl block of `adjust_route_parameters`. -/
def adjustFentanyl (d : Drug) (r : Route) (p : RouteParams) : RouteParams :=
  if d = .fentanyl then
    let p1 := if r = .transdermal then { p with absorpt := 12, bioavail := 0.92 } else p
    if r = .sublingual then { p1 with bioavail := 0.8 } else p1
  else p

/-- Stimulants (amphetamines) block of `adjust_route_parameters`:
drug codes 3..5 in the C enum. -/
def adjustStimulants (d : Drug) (r : Route) (p : RouteParams) : RouteParams :=
  if 3 ≤ d.code ∧ d.code ≤ 5 then
    let p1 := if r = .intranasal then { p with bioavail := 0.8, absorpt := 0.2 } else p
    if r = .inhalation then { p1 with bioavail := 0.7, absorpt := 0.08 } else p1
  else p

/-- Opioids block of `adjust_route_parameters`: drug codes 6..11,
methadone or diamorphine. -/
def adjustOpioids (d : Drug) (r : Route) (p : RouteParams) : RouteParams :=
  if (6 ≤ d.code ∧ d.code ≤ 11) ∨ d = .methadone ∨ d = .diamorphine then
    let p1 := if r = .intravenous then { p with bioavail := 1, oralFac := 0.08 } else p
    if r = .intranasal then { p1 with bioavail := 0.65 } else p1
  else p

/-- Psychedelics block of `adjust_route_parameters`: drug codes 15..19
(this range also covers ketamine in the C enum). -/
def adjustPsychedelics (d : Drug) (r : Route) (p : RouteParams) : RouteParams :=
  if 15 ≤ d.code ∧ d.code ≤ 19 then
    let p1 := if r = .inhalation ∧ d ≠ .dmt then
      { p with bioavail := p.bioavail * 0.3 } else p
    if d = .dmt ∧ r = .inhalation then { p1 with bioavail := 0.8, absorpt := 0.02 } else p1
  else p

/-- Benzodiazepines block of `adjust_route_parameters`. -/
def adjustBenzodiazepines (d : Drug) (r : Route) (p : RouteParams) : RouteParams :=
  if d = .benzodiazepines then
    let p1 := if r = .sublingual then { p with bioavail := 0.9, absorpt := 0.3 } else p
    if r = .rectal then { p1 with bioavail := 0.8, absorpt := 0.5 } else p1
  else p

/-- Ketamine block of `adjust_route_parameters`. -/
def adjustKetamine (d : Drug) (r : Route) (p : RouteParams) : RouteParams :=
  if d = .ketamine then
    let p1 := if r = .intranasal then { p with bioavail := 0.5, absorpt := 0.3 } else p
    if r = .intramuscular then { p1 with bioavail := 0.93, absorpt := 0.3 } else p1
  else p

/-- GHB block of `adjust_route_parameters`. -/
def adjustGHB (d : Drug) (r : Route) (p : RouteParams) : RouteParams :=
  if d = .ghb ∧ r ≠ .oral then { p with bioavail := p.bioavail * 0.5 } else p

/-- Topical-route restriction block of `adjust_route_parameters`. -/
def adjustTopical (d : Drug) (r : Route) (p : RouteParams) : RouteParams :=
  if r = .topical then
    if d ≠ .fentanyl ∧ d ≠ .methadone then
      { p with bioavail := 0.05, oralFac := 0.002 } else p
  else p

/-- Function `adjust_route_parameters`: the drug-class blocks applied in the
source's order, the universal topical restriction last. -/
def adjustRouteParameters (d : Drug) (r : Route) (p : RouteParams) : RouteParams :=
  adjustTopical d r <| adjustGHB d r <| adjustKetamine d r <|
    adjustBenzodiazepines d r <| adjustPsychedelics d r <| adjustOpioids d r <|
      adjustStimulants d r <| adjustFentanyl d r <| adjustAlcohol d r p

/-- The global `fentanyl_dose_constant = 1f`. -/
def fentanylDoseConstant : ℝ := 1

/-- A C `(int)` cast of a float: truncation toward zero. -/
noncomputable def ctrunc (x : ℝ) : ℤ := if 0 ≤ x then ⌊x⌋ else ⌈x⌉

/-- The single-dose concentration computation of `calculate_detection_time`
(lines 1194-1204): generic formula with special cases for fentanyl
(user dosage replaced by the fixed dose constant) and alcohol
(additional factor 0.5). -/
noncomputable def singleDoseConc (d : Drug) (dosage weight : ℤ) (oralFac bioavail : ℝ) : ℝ :=
  if d = .fentanyl then
    fentanylDoseConstant * 1000 * oralFac * bioavail / (weight : ℝ)
  else if d = .alcohol then
    (dosage : ℝ) * oralFac * bioavail * 0.5 / (weight : ℝ)
  else
    (dosage : ℝ) * oralFac * bioavail / (weight : ℝ)

/-- Flip-flop kinetics adjustment of a half-life for the absorption rate. -/
noncomputable def flipflop (halflife absorpt : ℝ) : ℝ :=
  if absorpt > halflife * 0.693 then
    halflife * (1 + absorpt / (halflife * 0.693))
  else halflife

/-- Age factor: a decreasing step function of age. -/
noncomputable def ageFactor (age : ℤ) : ℝ :=
  if age < 35 then 1.15 else if age < 50 then 1 else if age < 65 then 0.85 else 0.7

/-- Metabolism factor: 0.7 slow, 1 normal, 1.4 otherwise (fast). -/
noncomputable def metabFactor (metab : ℤ) : ℝ :=
  if metab = 1 then 0.7 else if metab = 2 then 1 else 1.4

/-- Dose count `num_doses = (int)(duration / dosing_interval) + 1`. -/
noncomputable def numDosesOf (duration interval : ℝ) : ℤ :=
  ctrunc (duration / interval) + 1

/-- The accumulation factor: `numDoses` in the degenerate `|r-1| < 1e-3`
case, the finite geometric sum `(1 - r^numDoses)/(1 - r)` otherwise. -/
noncomputable def accumulationFactor (r : ℝ) (n : ℤ) : ℝ :=
  if |r - 1| < 0.001 then (n : ℝ) else (1 - r ^ n.toNat) / (1 - r)

/-- The clamp applied to the buildup percentage: values above 100 are
reported as 100. -/
noncomputable def clampBuildup (x : ℝ) : ℝ := if x > 100 then 100 else x

/-- The detection-time solver: 0 at or below the cutoff, otherwise the
inversion `ln(totalConc/cutoff)/eliminationRate` of exponential decay. -/
noncomputable def solveDetectionTime (totalConc cutoff elimRate : ℝ) : ℝ :=
  if totalConc > cutoff then Real.log (totalConc / cutoff) / elimRate else 0

/-- All intermediate and final values of `calculate_detection_time`. -/
structure CalcResult where
  bioavail : ℝ
  oralFac : ℝ
  absorpt : ℝ
  hlSaliva : ℝ
  hlUrine : ℝ
  elimRateSaliva : ℝ
  elimRateUrine : ℝ
  singleConcSaliva : ℝ
  singleConcUrine : ℝ
  numDoses : ℤ
  rFactorSaliva : ℝ
  rFactorUrine : ℝ
  accumFactorSaliva : ℝ
  accumFactorUrine : ℝ
  totalConcSaliva : ℝ
  totalConcUrine : ℝ
  steadyConcSaliva : ℝ
  steadyConcUrine : ℝ
  buildupSaliva : ℝ
  buildupUrine : ℝ
  detectionTimeSaliva : ℝ
  detectionTimeUrine : ℝ

/-- The numeric pipeline of `calculate_detection_time` for both matrices:
route adjustment, dose-response, flip-flop correction, elimination
rates, accumulation, steady state, buildup, detection times. -/
noncomputable def calculateDetectionTime (d : Drug) (rt : Route)
    (dosage weight age metab : ℤ) (duration : ℝ) : CalcResult :=
  let p := adjustRouteParameters d rt (baseParams rt)
  let sc := singleDoseConc d dosage weight p.oralFac p.bioavail
  let hls := flipflop d.halflifeSaliva p.absorpt
  let hlu := flipflop d.halflifeUrine p.absorpt
  let ks := 0.693 / hls * ageFactor age * metabFactor metab
  let ku := 0.693 / hlu * ageFactor age * metabFactor metab
  let n := numDosesOf duration d.dosingInterval
  let rs := 1 - Real.exp (-ks * d.dosingInterval)
  let ru := 1 - Real.exp (-ku * d.dosingInterval)
  let afs := accumulationFactor rs n
  let afu := accumulationFactor ru n
  let tcs := sc * afs
  let tcu := sc * afu
  let sss := sc / (1 - Real.exp (-ks * d.dosingInterval))
  let ssu := sc / (1 - Real.exp (-ku * d.dosingInterval))
  { bioavail := p.bioavail
    oralFac := p.oralFac
    absorpt := p.absorpt
    hlSaliva := hls
    hlUrine := hlu
    elimRateSaliva := ks
    elimRateUrine := ku
    singleConcSaliva := sc
    singleConcUrine := sc
    numDoses := n
    rFactorSaliva := rs
    rFactorUrine := ru
    accumFactorSaliva := afs
    accumFactorUrine := afu
    totalConcSaliva := tcs
    totalConcUrine := tcu
    steadyConcSaliva := sss
    steadyConcUrine := ssu
    buildupSaliva := clampBuildup ((tcs / sss) * 100)
    buildupUrine := clampBuildup ((tcu / ssu) * 100)
    detectionTimeSaliva := solveDetectionTime tcs d.cutoffSaliva ks
    detectionTimeUrine := solveDetectionTime tcu d.cutoffUrine ku }

/-- Conversion of a detection time in hours to a whole second count,
`(int)(detection_time * 3600f)`. -/
noncomputable def totalSeconds (t : ℝ) : ℕ := ⌊t * 3600⌋₊

/-- The day/hour/minute/second decomposition printed by
`calculate_detection_time`, via integer division as in the source. -/
def decomposeSeconds (s : ℕ) : ℕ × ℕ × ℕ × ℕ :=
  let hours := s / 3600
  let minutes := (s - hours * 3600) / 60
  let secs := s - hours * 3600 - minutes * 60
  let days := hours / 24
  (days, hours - days * 24, minutes, secs)

/-! ## Curve renderer (`plot_concentration_curve`) -/

/-- Absorption rate constant of the renderer:
`ka = 0.693 / absorption_rate`, raised to at least 0.1. -/
noncomputable def plotKa (absorpt : ℝ) : ℝ :=
  if 0.693 / absorpt < 0.1 then 0.1 else 0.693 / absorpt

/-- Time range of the plot: `max(duration + 8*thalf, 24)`. -/
noncomputable def plotTmax (duration thalf : ℝ) : ℝ :=
  max (duration + 8 * thalf) 24

/-- Sample spacing of the plot: `tmax / 60`. -/
noncomputable def plotDt (duration thalf : ℝ) : ℝ := plotTmax duration thalf / 60

/-- The renderer's dose count, `(int)(duration / dosing_interval) + 1`,
as a natural number of summands. -/
noncomputable def plotNumDoses (duration interval : ℝ) : ℕ :=
  (numDosesOf duration interval).toNat

/-- Contribution of one dose (given at `doseTime`) to the concentration at
time `t`: nothing before the dose; otherwise instantaneous absorption for
fast routes (`absorpt < 0.5`) or first-order absorption via `ka`, then
first-order elimination. -/
noncomputable def doseContrib (single kelim ka absorpt t doseTime : ℝ) : ℝ :=
  if doseTime ≤ t then
    (if absorpt < 0.5 then single
      else single * (1 - Real.exp (-ka * (t - doseTime)))) *
      Real.exp (-kelim * (t - doseTime))
  else 0

/-- Superposition of the contributions of all doses at plot time `t`. -/
noncomputable def plotSuperposition (single kelim absorpt interval : ℝ)
    (numDoses : ℕ) (t : ℝ) : ℝ :=
  ∑ dn ∈ Finset.range numDoses,
    doseContrib single kelim (plotKa absorpt) absorpt t ((dn : ℝ) * interval)

/-- Concentration at plot time `t`: superposition of all doses, with
additional decay after the dosing period ends. -/
noncomputable def plotConcAt (single kelim absorpt interval duration : ℝ)
    (numDoses : ℕ) (t : ℝ) : ℝ :=
  if t > duration then
    plotSuperposition single kelim absorpt interval numDoses t *
      Real.exp (-kelim * (t - duration))
  else plotSuperposition single kelim absorpt interval numDoses t

/-- The `i`-th of the 61 samples (`i = 0..60`) of the rendered curve. -/
noncomputable def plotSample (single kelim absorpt interval duration thalf : ℝ)
    (i : ℕ) : ℝ :=
  plotConcAt single kelim absorpt interval duration
    (plotNumDoses duration interval) ((i : ℝ) * plotDt duration thalf)

/-- The maximum of the 61 samples, starting from 0. -/
noncomputable def plotCmax0 (single kelim absorpt interval duration thalf : ℝ) : ℝ :=
  (Finset.range 61).fold max 0
    (plotSample single kelim absorpt interval duration thalf)

/-- The sample maximum raised to at least `cutoff * 2`. -/
noncomputable def plotCmax1 (single kelim absorpt interval duration thalf cutoff : ℝ) : ℝ :=
  if plotCmax0 single kelim absorpt interval duration thalf < cutoff * 2 then cutoff * 2
  else plotCmax0 single kelim absorpt interval duration thalf

/-- The renderer's vertical scale: the sample maximum, raised to at least
`cutoff * 2` and then to at least 1. -/
noncomputable def plotCmax (single kelim absorpt interval duration thalf cutoff : ℝ) : ℝ :=
  if plotCmax1 single kelim absorpt interval duration thalf cutoff < 1 then 1
  else plotCmax1 single kelim absorpt interval duration thalf cutoff

/-- The trailing analysis prints the "peak below cutoff, no detection
expected" message exactly when its `cmax > cutoff` test fails. -/
noncomputable def belowCutoffMessage (single kelim absorpt interval duration thalf cutoff : ℝ) :
    Prop :=
  ¬ (plotCmax single kelim absorpt interval duration thalf cutoff > cutoff)

open Classical in
/-- The "time to non-detection" of the trailing analysis: the time of the
latest sample still above the cutoff, or 0 when no sample is. -/
noncomputable def analysisTime (single kelim absorpt interval duration thalf cutoff : ℝ) : ℝ :=
  if ∃ i ∈ Finset.range 61,
      cutoff < plotSample single kelim absorpt interval duration thalf i then
    (Nat.findGreatest
      (fun i => cutoff < plotSample single kelim absorpt interval duration thalf i) 60 : ℝ) *
      plotDt duration thalf
  else 0

/-- The saliva curve sample as `calculate_detection_time` invokes the
renderer: with the adjusted single-dose concentration, saliva elimination
rate, adjusted absorption rate, the drug's dosing interval, the usage
duration, and the flip-flop-corrected saliva half-life. -/
noncomputable def salivaCurveSample (d : Drug) (rt : Route)
    (dosage weight age metab : ℤ) (duration : ℝ) (i : ℕ) : ℝ :=
  let res := calculateDetectionTime d rt dosage weight age metab duration
  plotSample res.singleConcSaliva res.elimRateSaliva res.absorpt
    d.dosingInterval duration res.hlSaliva i

/-- Whether the renderer invoked from `calculate_detection_time` prints
the below-cutoff message. -/
noncomputable def salivaBelowCutoffMessage (d : Drug) (rt : Route)
    (dosage weight age metab : ℤ) (duration : ℝ) : Prop :=
  let res := calculateDetectionTime d rt dosage weight age metab duration
  belowCutoffMessage res.singleConcSaliva res.elimRateSaliva res.absorpt
    d.dosingInterval duration res.hlSaliva d.cutoffSaliva

/-- The analysis time reported by the renderer invoked from
`calculate_detection_time`. -/
noncomputable def salivaAnalysisTime (d : Drug) (rt : Route)
    (dosage weight age metab : ℤ) (duration : ℝ) : ℝ :=
  let res := calculateDetectionTime d rt dosage weight age metab duration
  analysisTime res.singleConcSaliva res.elimRateSaliva res.absorpt
    d.dosingInterval duration res.hlSaliva d.cutoffSaliva

/-! ## Spectrum synthesizer (`nmr_plot`) -/

/-- A Lorentzian peak of the synthetic NMR spectrum. -/
structure NMRPeak where
  shift : ℝ
  intensity : ℝ
  width : ℝ

/-- The `i`-th frequency of the 121-point axis, 12 ppm down to 0 ppm. -/
noncomputable def nmrFreq (i : ℕ) : ℝ := 12 - (i : ℝ) * 0.1

/-- The summed spectrum intensity at axis point `i`: every peak whose
shift lies in [0, 12] contributes a Lorentzian term with width floored at
0.05 and intensity scaled by `concentration / 100`. -/
noncomputable def spectrumAt (peaks : List NMRPeak) (conc : ℝ) (i : ℕ) : ℝ :=
  (peaks.map (fun pk =>
    if 0 ≤ pk.shift ∧ pk.shift ≤ 12 then
      (pk.intensity * conc / 100) /
        (1 + (|nmrFreq i - pk.shift| / max 0.05 pk.width) ^ 2)
    else 0)).sum

/-- The maximum of the summed spectrum over the 121 points, from 0. -/
noncomputable def specMax0 (peaks : List NMRPeak) (conc : ℝ) : ℝ :=
  (Finset.range 121).fold max 0 (spectrumAt peaks conc)

/-- The normalizing maximum: replaced by 1 when not positive
(`if (spec_max <= 0f) spec_max = 1f`). -/
noncomputable def specMaxAdj (peaks : List NMRPeak) (conc : ℝ) : ℝ :=
  if specMax0 peaks conc ≤ 0 then 1 else specMax0 peaks conc

/-- Whether row `line` (1..50) of the rendered spectrum draws a peak
marker at column `i`: the summed intensity reaches the row threshold
`spec_max * line / 50`. -/
noncomputable def starAt (peaks : List NMRPeak) (conc : ℝ) (line i : ℕ) : Prop :=
  specMaxAdj peaks conc * (line : ℝ) / 50 ≤ spectrumAt peaks conc i

/-- The generic (default-case) peak table of `generate_nmr_data`. -/
noncomputable def genericPeaks : List NMRPeak :=
  [⟨7, 100, 0.09⟩, ⟨3.5, 80, 0.09⟩, ⟨1.5, 120, 0.09⟩]

/-! ## Name resolution (`get_drug_selection`, `get_route_selection`) -/

/-- Case-insensitive equality of two character strings, as
`str_compare_upper` implements it: both sides mapped to upper case. -/
def upperEq (a b : List Char) : Bool :=
  a.map Char.toUpper == b.map Char.toUpper

/-- The drug name table searched by `get_drug_selection`: the 24 primary
names in enum order, then the documented synonyms. -/
def drugNameTable : List (List Char × ℕ) :=
  [("FENTANYL".data, 1), ("NITAZENES".data, 2), ("AMPHETAMINE".data, 3),
   ("METHAMPHETAMINE".data, 4), ("DEXTROAMPHETAMINE".data, 5),
   ("HYDROMORPHONE".data, 6), ("OXYCODONE".data, 7), ("MORPHINE".data, 8),
   ("HYDROCODONE".data, 9), ("CODEINE".data, 10), ("PETHIDINE".data, 11),
   ("BARBITURATES".data, 12), ("BENZODIAZEPINES".data, 13), ("ALCOHOL".data, 14),
   ("LSD".data, 15), ("KETAMINE".data, 16), ("MESCALINE".data, 17),
   ("PSILOCYBIN".data, 18), ("DMT".data, 19), ("GHB".data, 20),
   ("METHAQUALONE".data, 21), ("METHADONE".data, 22),
   ("DEXTROPROPOXYPHENE".data, 23), ("DIAMORPHINE".data, 24),
   ("MEPERIDINE".data, 11), ("ETHANOL".data, 14),
   ("PROPOXYPHENE".data, 23), ("HEROIN".data, 24)]

/-- Function `get_drug_selection`: the first matching table entry's id, else the
sentinel 0. -/
def getDrugSelection (input : List Char) : ℕ :=
  match drugNameTable.find? (fun e => upperEq input e.1) with
  | some e => e.2
  | none => 0

/-- The route name table searched by `get_route_selection`: the 11 primary
names in enum order, then the documented abbreviations and synonyms. -/
def routeNameTable : List (List Char × ℕ) :=
  [("ORAL".data, 1), ("INTRAVENOUS".data, 2), ("INTRAMUSCULAR".data, 3),
   ("SUBCUTANEOUS".data, 4), ("INTRANASAL".data, 5), ("INHALATION".data, 6),
   ("SUBLINGUAL".data, 7), ("TRANSDERMAL".data, 8), ("RECTAL".data, 9),
   ("BUCCAL".data, 10), ("TOPICAL".data, 11),
   ("IV".data, 2), ("I.V.".data, 2), ("I.V".data, 2), ("INJECTION".data, 2),
   ("IM".data, 3), ("I.M.".data, 3), ("I.M".data, 3), ("MUSCLE".data, 3),
   ("SC".data, 4), ("SQ".data, 4), ("SUBQ".data, 4), ("S.C.".data, 4), ("SUB-Q".data, 4),
   ("IN".data, 5), ("NASAL".data, 5), ("SNORT".data, 5), ("SNORTING".data, 5), ("NOSE".data, 5),
   ("INH".data, 6), ("INHALED".data, 6), ("SMOKING".data, 6), ("SMOKE".data, 6),
   ("VAPING".data, 6), ("VAPE".data, 6),
   ("PO".data, 1), ("P.O.".data, 1), ("MOUTH".data, 1), ("SWALLOW".data, 1),
   ("PILL".data, 1), ("TABLET".data, 1),
   ("SL".data, 7), ("S.L.".data, 7), ("UNDER TONGUE".data, 7), ("SUB".data, 7),
   ("TD".data, 8), ("PATCH".data, 8), ("SKIN".data, 8),
   ("PR".data, 9), ("P.R.".data, 9), ("RECTAL".data, 9), ("SUPPOSITORY".data, 9),
   ("BUC".data, 10), ("CHEEK".data, 10),
   ("TOP".data, 11), ("CREAM".data, 11), ("GEL".data, 11)]

/-- Function `get_route_selection`: the first matching table entry's id, else the
sentinel 0. -/
def getRouteSelection (input : List Char) : ℕ :=
  match routeNameTable.find? (fun e => upperEq input e.1) with
  | some e => e.2
  | none => 0

/-- Decoding a drug id back to the enum (ids 1..24). -/
def drugOfCode (n : ℕ) : Option Drug :=
  match n with
  | 1 => some .fentanyl
  | 2 => some .nitazenes
  | 3 => some .amphetamine
  | 4 => some .methamphetamine
  | 5 => some .dextroamphetamine
  | 6 => some .hydromorphone
  | 7 => some .oxycodone
  | 8 => some .morphine
  | 9 => some .hydrocodone
  | 10 => some .codeine
  | 11 => some .pethidine
  | 12 => some .barbiturates
  | 13 => some .benzodiazepines
  | 14 => some .alcohol
  | 15 => some .lsd
  | 16 => some .ketamine
  | 17 => some .mescaline
  | 18 => some .psilocybin
  | 19 => some .dmt
  | 20 => some .ghb
  | 21 => some .methaqualone
  | 22 => some .methadone
  | 23 => some .dextropropoxyphene
  | 24 => some .diamorphine
  | _ => none

/-- Decoding a route id back to the enum (ids 1..11). -/
def routeOfCode (n : ℕ) : Option Route :=
  match n with
  | 1 => some .oral
  | 2 => some .intravenous
  | 3 => some .intramuscular
  | 4 => some .subcutaneous
  | 5 => some .intranasal
  | 6 => some .inhalation
  | 7 => some .sublingual
  | 8 => some .transdermal
  | 9 => some .rectal
  | 10 => some .buccal
  | 11 => some .topical
  | _ => none

/-- Control flow of `main` around the calculation: a sentinel (0) from
either name resolution makes the program reject the input and exit; only
with two valid identifiers is `calculate_detection_time` reached. -/
noncomputable def runProgram (drugInput routeInput : List Char)
    (dosage weight age metab : ℤ) (duration : ℝ) : Option CalcResult :=
  match drugOfCode (getDrugSelection drugInput) with
  | none => none
  | some d =>
    match routeOfCode (getRouteSelection routeInput) with
    | none => none
    | some rt => some (calculateDetectionTime d rt dosage weight age metab duration)

/-! ## Basic facts about the tables and the numeric steps -/

lemma halflifeSaliva_pos (d : Drug) : 0 < d.halflifeSaliva := by
  cases d <;> norm_num [Drug.halflifeSaliva]

lemma halflifeUrine_pos (d : Drug) : 0 < d.halflifeUrine := by
  cases d <;> norm_num [Drug.halflifeUrine]

lemma cutoffSaliva_pos (d : Drug) : 0 < d.cutoffSaliva := by
  cases d <;> norm_num [Drug.cutoffSaliva]

lemma cutoffUrine_pos (d : Drug) : 0 < d.cutoffUrine := by
  cases d <;> norm_num [Drug.cutoffUrine]

lemma dosingInterval_pos (d : Drug) : 0 < d.dosingInterval := by
  cases d <;> norm_num [Drug.dosingInterval]

lemma baseParams_pos (r : Route) : (baseParams r).Pos := by
  cases r <;>
    exact ⟨by norm_num [baseParams, Route.bioavailability],
      by norm_num [baseParams, Route.oralFactor],
      by norm_num [baseParams, Route.absorptionRate]⟩

lemma adjustAlcohol_pos (d : Drug) (r : Route) (p : RouteParams) (h : p.Pos) :
    (adjustAlcohol d r p).Pos := by
  obtain ⟨h1, h2, h3⟩ := h
  unfold adjustAlcohol
  split_ifs <;> exact ⟨by positivity, by positivity, by positivity⟩

lemma adjustFentanyl_pos (d : Drug) (r : Route) (p : RouteParams) (h : p.Pos) :
    (adjustFentanyl d r p).Pos := by
  obtain ⟨h1, h2, h3⟩ := h
  unfold adjustFentanyl
  split_ifs <;> exact ⟨by positivity, by positivity, by positivity⟩

lemma adjustStimulants_pos (d : Drug) (r : Route) (p : RouteParams) (h : p.Pos) :
    (adjustStimulants d r p).Pos := by
  obtain ⟨h1, h2, h3⟩ := h
  unfold adjustStimulants
  split_ifs <;> exact ⟨by positivity, by positivity, by positivity⟩

lemma adjustOpioids_pos (d : Drug) (r : Route) (p : RouteParams) (h : p.Pos) :
    (adjustOpioids d r p).Pos := by
  obtain ⟨h1, h2, h3⟩ := h
  unfold adjustOpioids
  split_ifs <;> exact ⟨by positivity, by positivity, by positivity⟩

lemma adjustPsychedelics_pos (d : Drug) (r : Route) (p : RouteParams) (h : p.Pos) :
    (adjustPsychedelics d r p).Pos := by
  obtain ⟨h1, h2, h3⟩ := h
  unfold adjustPsychedelics
  split_ifs <;> exact ⟨by positivity, by positivity, by positivity⟩

lemma adjustBenzodiazepines_pos (d : Drug) (r : Route) (p : RouteParams) (h : p.Pos) :
    (adjustBenzodiazepines d r p).Pos := by
  obtain ⟨h1, h2, h3⟩ := h
  unfold adjustBenzodiazepines
  split_ifs <;> exact ⟨by positivity, by positivity, by positivity⟩

lemma adjustKetamine_pos (d : Drug) (r : Route) (p : RouteParams) (h : p.Pos) :
    (adjustKetamine d r p).Pos := by
  obtain ⟨h1, h2, h3⟩ := h
  unfold adjustKetamine
  split_ifs <;> exact ⟨by positivity, by positivity, by positivity⟩

lemma adjustGHB_pos (d : Drug) (r : Route) (p : RouteParams) (h : p.Pos) :
    (adjustGHB d r p).Pos := by
  obtain ⟨h1, h2, h3⟩ := h
  unfold adjustGHB
  split_ifs <;> exact ⟨by positivity, by positivity, by positivity⟩

lemma adjustTopical_pos (d : Drug) (r : Route) (p : RouteParams) (h : p.Pos) :
    (adjustTopical d r p).Pos := by
  obtain ⟨h1, h2, h3⟩ := h
  unfold adjustTopical
  split_ifs <;> exact ⟨by positivity, by positivity, by positivity⟩

/-- Every adjustment rule only multiplies by or installs positive
constants, so the adjusted route parameters stay positive. -/
lemma adjustRouteParameters_pos (d : Drug) (r : Route) (p : RouteParams) (h : p.Pos) :
    (adjustRouteParameters d r p).Pos := by
  unfold adjustRouteParameters
  exact adjustTopical_pos _ _ _ (adjustGHB_pos _ _ _ (adjustKetamine_pos _ _ _
    (adjustBenzodiazepines_pos _ _ _ (adjustPsychedelics_pos _ _ _ (adjustOpioids_pos _ _ _
      (adjustStimulants_pos _ _ _ (adjustFentanyl_pos _ _ _ (adjustAlcohol_pos _ _ _ h))))))))

lemma flipflop_pos (hl a : ℝ) (hhl : 0 < hl) (ha : 0 < a) : 0 < flipflop hl a := by
  unfold flipflop
  split_ifs with h
  · have : 0 < hl * 0.693 := by positivity
    positivity
  · exact hhl

lemma ageFactor_pos (age : ℤ) : 0 < ageFactor age := by
  unfold ageFactor
  split_ifs <;> norm_num

lemma metabFactor_pos (metab : ℤ) : 0 < metabFactor metab := by
  unfold metabFactor
  split_ifs <;> norm_num

lemma ctrunc_eq_floor (x : ℝ) (h : 0 ≤ x) : ctrunc x = ⌊x⌋ := by
  simp [ctrunc, h]

lemma ctrunc_nonneg (x : ℝ) (h : 0 ≤ x) : 0 ≤ ctrunc x := by
  rw [ctrunc_eq_floor x h]
  exact Int.floor_nonneg.mpr h

lemma numDosesOf_ge_one (duration interval : ℝ) (hd : 0 ≤ duration)
    (hi : 0 < interval) : 1 ≤ numDosesOf duration interval := by
  have h0 : 0 ≤ duration / interval := div_nonneg hd hi.le
  have := ctrunc_nonneg _ h0
  unfold numDosesOf
  omega

lemma numDosesOf_mono (d1 d2 interval : ℝ) (h1 : 0 ≤ d1) (h12 : d1 ≤ d2)
    (hi : 0 < interval) : numDosesOf d1 interval ≤ numDosesOf d2 interval := by
  unfold numDosesOf
  have h0 : 0 ≤ d1 / interval := div_nonneg h1 hi.le
  have h0' : 0 ≤ d2 / interval := div_nonneg (h1.trans h12) hi.le
  rw [ctrunc_eq_floor _ h0, ctrunc_eq_floor _ h0']
  have := Int.floor_le_floor ((div_le_div_right hi).mpr h12)
  omega

lemma one_sub_exp_neg_pos (x : ℝ) (hx : 0 < x) : 0 < 1 - Real.exp (-x) := by
  have : Real.exp (-x) < 1 := by
    rw [Real.exp_lt_one_iff]
    linarith
  linarith

lemma one_sub_exp_neg_lt_one (x : ℝ) (hx : 0 < x) : 1 - Real.exp (-x) < 1 := by
  have := Real.exp_pos (-x)
  linarith

lemma accumulationFactor_nonneg (r : ℝ) (n : ℤ) (hr0 : 0 ≤ r) (hr1 : r < 1)
    (hn : 0 ≤ n) : 0 ≤ accumulationFactor r n := by
  unfold accumulationFactor
  split_ifs with h
  · exact_mod_cast hn
  · have hp : r ^ n.toNat ≤ 1 := pow_le_one₀ hr0 hr1.le
    have hd : (0:ℝ) < 1 - r := by linarith
    exact div_nonneg (by linarith) hd.le

/-- More doses never decrease the accumulation factor. -/
lemma accumulationFactor_mono (r : ℝ) (n1 n2 : ℤ) (hr0 : 0 ≤ r) (hr1 : r < 1)
    (hn : n1 ≤ n2) : accumulationFactor r n1 ≤ accumulationFactor r n2 := by
  unfold accumulationFactor
  split_ifs with h
  · exact_mod_cast hn
  · have hd : (0:ℝ) < 1 - r := by linarith
    rw [div_le_div_iff hd hd]
    have hp : r ^ n2.toNat ≤ r ^ n1.toNat :=
      pow_le_pow_of_le_one hr0 hr1.le (Int.toNat_le_toNat hn)
    nlinarith

/-- In the geometric branch the accumulation factor is at most the
steady-state multiplier `(1 - r)⁻¹`. -/
lemma accumulationFactor_le_inv (r : ℝ) (n : ℤ) (hr0 : 0 ≤ r) (hr1 : r < 1)
    (hdeg : ¬ |r - 1| < 0.001) : accumulationFactor r n ≤ (1 - r)⁻¹ := by
  unfold accumulationFactor
  rw [if_neg hdeg]
  have hd : (0:ℝ) < 1 - r := by linarith
  have hp : 0 ≤ r ^ n.toNat := pow_nonneg hr0 _
  calc (1 - r ^ n.toNat) / (1 - r) ≤ 1 / (1 - r) :=
        (div_le_div_right hd).mpr (by linarith)
    _ = (1 - r)⁻¹ := one_div _

lemma singleDoseConc_nonneg (d : Drug) (dosage weight : ℤ) (oralFac bioavail : ℝ)
    (hdos : 0 ≤ dosage) (hw : 0 ≤ weight) (hof : 0 ≤ oralFac) (hb : 0 ≤ bioavail) :
    0 ≤ singleDoseConc d dosage weight oralFac bioavail := by
  have hdr : (0:ℝ) ≤ (dosage : ℝ) := by exact_mod_cast hdos
  have hwr : (0:ℝ) ≤ (weight : ℝ) := by exact_mod_cast hw
  unfold singleDoseConc fentanylDoseConstant
  split_ifs <;> positivity

lemma singleDoseConc_pos (d : Drug) (dosage weight : ℤ) (oralFac bioavail : ℝ)
    (hdos : 0 < dosage) (hw : 0 < weight) (hof : 0 < oralFac) (hb : 0 < bioavail) :
    0 < singleDoseConc d dosage weight oralFac bioavail := by
  have hdr : (0:ℝ) < (dosage : ℝ) := by exact_mod_cast hdos
  have hwr : (0:ℝ) < (weight : ℝ) := by exact_mod_cast hw
  unfold singleDoseConc fentanylDoseConstant
  split_ifs <;> positivity

lemma clampBuildup_bounds (x : ℝ) (h : 0 ≤ x) :
    0 ≤ clampBuildup x ∧ clampBuildup x ≤ 100 := by
  unfold clampBuildup
  split_ifs with hc
  · norm_num
  · exact ⟨h, by linarith [not_lt.mp hc]⟩

lemma solveDetectionTime_of_le (t c k : ℝ) (h : t ≤ c) :
    solveDetectionTime t c k = 0 := by
  unfold solveDetectionTime
  exact if_neg (not_lt.mpr h)

lemma solveDetectionTime_of_gt (t c k : ℝ) (h : c < t) :
    solveDetectionTime t c k = Real.log (t / c) / k := by
  unfold solveDetectionTime
  rw [if_pos h]

/-- Bound `exp x ≤ (1 - x)⁻¹` below 1, from `1 + y ≤ exp y` at `y = -x`. -/
lemma exp_le_inv_one_sub (x : ℝ) (hx : x < 1) : Real.exp x ≤ (1 - x)⁻¹ := by
  have h1 : 1 - x ≤ Real.exp (-x) := by
    have := Real.add_one_le_exp (-x)
    linarith
  have hd : (0:ℝ) < 1 - x := by linarith
  have h2 : (Real.exp (-x))⁻¹ ≤ (1 - x)⁻¹ := inv_le_inv_of_le hd h1
  rwa [Real.exp_neg, inv_inv] at h2

/-! ## Renderer bounds -/

lemma plotKa_pos (a : ℝ) : 0 < plotKa a := by
  unfold plotKa
  split_ifs with h
  · norm_num
  · have := not_lt.mp h
    linarith

lemma doseContrib_nonneg (single kelim ka absorpt t doseTime : ℝ)
    (hs : 0 ≤ single) (hk : 0 ≤ kelim) (hka : 0 ≤ ka) :
    0 ≤ doseContrib single kelim ka absorpt t doseTime := by
  unfold doseContrib
  split_ifs with h1 h2
  · positivity
  · have hd : 0 ≤ t - doseTime := by linarith
    have he : Real.exp (-ka * (t - doseTime)) ≤ 1 := by
      rw [Real.exp_le_one_iff]
      nlinarith
    have h0 : 0 ≤ 1 - Real.exp (-ka * (t - doseTime)) := by linarith
    positivity
  · exact le_refl 0

lemma doseContrib_le (single kelim ka absorpt t doseTime : ℝ)
    (hs : 0 ≤ single) (hk : 0 ≤ kelim) (hka : 0 ≤ ka) :
    doseContrib single kelim ka absorpt t doseTime ≤ single := by
  unfold doseContrib
  split_ifs with h1 h2
  · have hd : 0 ≤ t - doseTime := by linarith
    have he : Real.exp (-kelim * (t - doseTime)) ≤ 1 := by
      rw [Real.exp_le_one_iff]
      nlinarith
    have h0 := (Real.exp_pos (-kelim * (t - doseTime))).le
    nlinarith
  · have hd : 0 ≤ t - doseTime := by linarith
    have hea : Real.exp (-ka * (t - doseTime)) ≤ 1 := by
      rw [Real.exp_le_one_iff]
      nlinarith
    have hea0 := (Real.exp_pos (-ka * (t - doseTime))).le
    have hek : Real.exp (-kelim * (t - doseTime)) ≤ 1 := by
      rw [Real.exp_le_one_iff]
      nlinarith
    have hek0 := (Real.exp_pos (-kelim * (t - doseTime))).le
    have f1 : 0 ≤ 1 - Real.exp (-ka * (t - doseTime)) := by linarith
    have g1 : single * (1 - Real.exp (-ka * (t - doseTime))) ≤ single * 1 :=
      mul_le_mul_of_nonneg_left (by linarith) hs
    have g0 : 0 ≤ single * (1 - Real.exp (-ka * (t - doseTime))) := mul_nonneg hs f1
    have g2 : single * (1 - Real.exp (-ka * (t - doseTime))) *
        Real.exp (-kelim * (t - doseTime)) ≤
          single * (1 - Real.exp (-ka * (t - doseTime))) * 1 :=
      mul_le_mul_of_nonneg_left hek g0
    nlinarith
  · exact hs

lemma plotSuperposition_nonneg (single kelim absorpt interval : ℝ) (n : ℕ) (t : ℝ)
    (hs : 0 ≤ single) (hk : 0 ≤ kelim) :
    0 ≤ plotSuperposition single kelim absorpt interval n t :=
  Finset.sum_nonneg fun i _ =>
    doseContrib_nonneg _ _ _ _ _ _ hs hk (plotKa_pos absorpt).le

lemma plotSuperposition_le (single kelim absorpt interval : ℝ) (n : ℕ) (t : ℝ)
    (hs : 0 ≤ single) (hk : 0 ≤ kelim) :
    plotSuperposition single kelim absorpt interval n t ≤ (n : ℝ) * single := by
  unfold plotSuperposition
  calc ∑ dn ∈ Finset.range n,
      doseContrib single kelim (plotKa absorpt) absorpt t ((dn : ℝ) * interval)
      ≤ (Finset.range n).card • single :=
        Finset.sum_le_card_nsmul _ _ _ fun i _ =>
          doseContrib_le _ _ _ _ _ _ hs hk (plotKa_pos absorpt).le
    _ = (n : ℝ) * single := by
        rw [Finset.card_range, nsmul_eq_mul]

lemma plotConcAt_nonneg (single kelim absorpt interval duration : ℝ) (n : ℕ) (t : ℝ)
    (hs : 0 ≤ single) (hk : 0 ≤ kelim) :
    0 ≤ plotConcAt single kelim absorpt interval duration n t := by
  unfold plotConcAt
  have hbase := plotSuperposition_nonneg single kelim absorpt interval n t hs hk
  split_ifs with h
  · exact mul_nonneg hbase (Real.exp_pos _).le
  · exact hbase

lemma plotConcAt_le (single kelim absorpt interval duration : ℝ) (n : ℕ) (t : ℝ)
    (hs : 0 ≤ single) (hk : 0 ≤ kelim) :
    plotConcAt single kelim absorpt interval duration n t ≤ (n : ℝ) * single := by
  unfold plotConcAt
  have hbase := plotSuperposition_le single kelim absorpt interval n t hs hk
  have hbase0 := plotSuperposition_nonneg single kelim absorpt interval n t hs hk
  split_ifs with h
  · have he : Real.exp (-kelim * (t - duration)) ≤ 1 := by
      rw [Real.exp_le_one_iff]
      nlinarith
    have he0 := (Real.exp_pos (-kelim * (t - duration))).le
    nlinarith
  · exact hbase

lemma plotSample_nonneg (single kelim absorpt interval duration thalf : ℝ) (i : ℕ)
    (hs : 0 ≤ single) (hk : 0 ≤ kelim) :
    0 ≤ plotSample single kelim absorpt interval duration thalf i :=
  plotConcAt_nonneg _ _ _ _ _ _ _ hs hk

lemma plotSample_le (single kelim absorpt interval duration thalf : ℝ) (i : ℕ)
    (hs : 0 ≤ single) (hk : 0 ≤ kelim) :
    plotSample single kelim absorpt interval duration thalf i ≤
      (plotNumDoses duration interval : ℝ) * single :=
  plotConcAt_le _ _ _ _ _ _ _ hs hk

/-- The renderer scale is clamped to at least `max (cutoff * 2) 1`, so
for a positive cutoff the `cmax > cutoff` test always succeeds. -/
lemma plotCmax_gt_cutoff (single kelim absorpt interval duration thalf cutoff : ℝ)
    (hc : 0 < cutoff) :
    cutoff < plotCmax single kelim absorpt interval duration thalf cutoff := by
  unfold plotCmax plotCmax1
  split_ifs with h1 h2 h3 <;> linarith

lemma analysisTime_eq_zero (single kelim absorpt interval duration thalf cutoff : ℝ)
    (h : ∀ i ∈ Finset.range 61,
      plotSample single kelim absorpt interval duration thalf i ≤ cutoff) :
    analysisTime single kelim absorpt interval duration thalf cutoff = 0 := by
  unfold analysisTime
  rw [if_neg]
  push_neg
  exact h

/-! ## Exponential bounds for the concrete scenarios -/

/-- For `x > 0` outside the degeneracy band the accumulation factor at
`r = 1 - exp (-x)` is at most `exp x`. -/
lemma accumFactor_le_exp (x : ℝ) (n : ℤ) (hx : 0 < x) (hd : 0.001 ≤ Real.exp (-x)) :
    accumulationFactor (1 - Real.exp (-x)) n ≤ Real.exp x := by
  have he1 : Real.exp (-x) ≤ 1 := Real.exp_le_one_iff.mpr (by linarith)
  have he0 : 0 < Real.exp (-x) := Real.exp_pos _
  have hdeg : ¬ |1 - Real.exp (-x) - 1| < 0.001 := by
    rw [show 1 - Real.exp (-x) - 1 = -(Real.exp (-x)) by ring, abs_neg, abs_of_pos he0]
    exact not_lt.mpr hd
  have h := accumulationFactor_le_inv (1 - Real.exp (-x)) n (by linarith) (by linarith) hdeg
  calc accumulationFactor (1 - Real.exp (-x)) n ≤ (1 - (1 - Real.exp (-x)))⁻¹ := h
    _ = (Real.exp (-x))⁻¹ := by ring_nf
    _ = Real.exp x := by rw [Real.exp_neg, inv_inv]

/-! ## Concrete scenario evaluations -/

/-- Route adjustment for diamorphine given intravenously: the opioid IV
override installs full bioavailability and oral factor 0.08. -/
lemma adjust_diamorphine_iv :
    adjustRouteParameters .diamorphine .intravenous (baseParams .intravenous) =
      ⟨1, 0.08, 0.1⟩ := rfl

/-- Route adjustment for amphetamine taken orally: no rule applies. -/
lemma adjust_amphetamine_oral :
    adjustRouteParameters .amphetamine .oral (baseParams .oral) =
      ⟨0.7, 0.01, 1.5⟩ := rfl

lemma scen1_bioavail :
    (calculateDetectionTime .diamorphine .intravenous 1000 76 28 3 48).bioavail = 1 := by
  simp only [calculateDetectionTime, adjust_diamorphine_iv]

lemma scen1_oralFac :
    (calculateDetectionTime .diamorphine .intravenous 1000 76 28 3 48).oralFac = 0.08 := by
  simp only [calculateDetectionTime, adjust_diamorphine_iv]

lemma scen1_singleConc :
    (calculateDetectionTime .diamorphine .intravenous 1000 76 28 3 48).singleConcSaliva =
      20 / 19 := by
  simp only [calculateDetectionTime, adjust_diamorphine_iv]
  simp [singleDoseConc]
  norm_num

lemma scen1_numDoses :
    (calculateDetectionTime .diamorphine .intravenous 1000 76 28 3 48).numDoses = 13 := by
  simp only [calculateDetectionTime, numDosesOf, ctrunc, Drug.dosingInterval]
  norm_num

lemma scen1_elimS :
    (calculateDetectionTime .diamorphine .intravenous 1000 76 28 3 48).elimRateSaliva =
      0.13946625 := by
  simp only [calculateDetectionTime, adjust_diamorphine_iv]
  norm_num [flipflop, ageFactor, metabFactor, Drug.halflifeSaliva]

lemma scen1_elimU :
    (calculateDetectionTime .diamorphine .intravenous 1000 76 28 3 48).elimRateUrine =
      0.04648875 := by
  simp only [calculateDetectionTime, adjust_diamorphine_iv]
  norm_num [flipflop, ageFactor, metabFactor, Drug.halflifeUrine]

lemma scen1_totalS :
    (calculateDetectionTime .diamorphine .intravenous 1000 76 28 3 48).totalConcSaliva =
      20 / 19 * accumulationFactor (1 - Real.exp (-0.557865)) 13 := by
  simp only [calculateDetectionTime, adjust_diamorphine_iv]
  norm_num [singleDoseConc, flipflop, ageFactor, metabFactor, Drug.halflifeSaliva,
    Drug.dosingInterval, numDosesOf, ctrunc]
  simp

lemma scen1_accumS :
    (calculateDetectionTime .diamorphine .intravenous 1000 76 28 3 48).accumFactorSaliva =
      accumulationFactor (1 - Real.exp (-0.557865)) 13 := by
  simp only [calculateDetectionTime, adjust_diamorphine_iv]
  norm_num [flipflop, ageFactor, metabFactor, Drug.halflifeSaliva,
    Drug.dosingInterval, numDosesOf, ctrunc]

lemma scen1_totalU :
    (calculateDetectionTime .diamorphine .intravenous 1000 76 28 3 48).totalConcUrine =
      20 / 19 * accumulationFactor (1 - Real.exp (-0.185955)) 13 := by
  simp only [calculateDetectionTime, adjust_diamorphine_iv]
  norm_num [singleDoseConc, flipflop, ageFactor, metabFactor, Drug.halflifeUrine,
    Drug.dosingInterval, numDosesOf, ctrunc]
  simp

lemma exp_quarter_bound : Real.exp 0.557865 ≤ ((0.86053375 : ℝ)⁻¹) ^ 4 := by
  rw [show (0.557865 : ℝ) = (4 : ℕ) * 0.13946625 by norm_num, Real.exp_nat_mul]
  have h := exp_le_inv_one_sub 0.13946625 (by norm_num)
  calc Real.exp 0.13946625 ^ (4 : ℕ) ≤ ((1 - 0.13946625 : ℝ)⁻¹) ^ 4 :=
        pow_le_pow_left (Real.exp_nonneg _) h 4
    _ = ((0.86053375 : ℝ)⁻¹) ^ 4 := by norm_num

lemma accumS_lt : accumulationFactor (1 - Real.exp (-0.557865)) 13 < 1.9 := by
  have hd : (0.001 : ℝ) ≤ Real.exp (-0.557865) := by
    have := Real.add_one_le_exp (-0.557865 : ℝ)
    linarith
  have h1 := accumFactor_le_exp 0.557865 13 (by norm_num) hd
  have h2 := exp_quarter_bound
  have h4 : ((0.86053375 : ℝ)⁻¹) ^ 4 < 1.9 := by norm_num
  linarith

lemma scen1_totalS_lt :
    (calculateDetectionTime .diamorphine .intravenous 1000 76 28 3 48).totalConcSaliva <
      2 := by
  rw [scen1_totalS]
  have h1 := accumS_lt
  have hd : (0.001 : ℝ) ≤ Real.exp (-0.557865) := by
    have := Real.add_one_le_exp (-0.557865 : ℝ)
    linarith
  nlinarith

lemma scen1_totalU_lt :
    (calculateDetectionTime .diamorphine .intravenous 1000 76 28 3 48).totalConcUrine <
      10 := by
  rw [scen1_totalU]
  have hd : (0.001 : ℝ) ≤ Real.exp (-0.185955) := by
    have := Real.add_one_le_exp (-0.185955 : ℝ)
    linarith
  have h1 := accumFactor_le_exp 0.185955 13 (by norm_num) hd
  have h2 := exp_le_inv_one_sub 0.185955 (by norm_num)
  have h4 : (20 / 19 : ℝ) * ((1 - 0.185955 : ℝ)⁻¹) < 10 := by norm_num
  nlinarith

lemma scen1_detS :
    (calculateDetectionTime .diamorphine .intravenous 1000 76 28 3 48).detectionTimeSaliva =
      0 := by
  have h := scen1_totalS_lt
  have hc : Drug.cutoffSaliva .diamorphine = 2 := rfl
  simp only [calculateDetectionTime] at h ⊢
  rw [hc]
  exact solveDetectionTime_of_le _ _ _ h.le

lemma scen1_detU :
    (calculateDetectionTime .diamorphine .intravenous 1000 76 28 3 48).detectionTimeUrine =
      0 := by
  have h := scen1_totalU_lt
  have hc : Drug.cutoffUrine .diamorphine = 10 := rfl
  simp only [calculateDetectionTime] at h ⊢
  rw [hc]
  exact solveDetectionTime_of_le _ _ _ h.le

lemma scen2_singleConc :
    (calculateDetectionTime .amphetamine .oral 100 70 28 3 0).singleConcSaliva = 0.01 := by
  simp only [calculateDetectionTime, adjust_amphetamine_oral]
  simp [singleDoseConc]
  norm_num

lemma scen2_elimS :
    (calculateDetectionTime .amphetamine .oral 100 70 28 3 0).elimRateSaliva =
      0.13946625 := by
  simp only [calculateDetectionTime, adjust_amphetamine_oral]
  norm_num [flipflop, ageFactor, metabFactor, Drug.halflifeSaliva]

lemma scen2_plotNumDoses : plotNumDoses 0 (Drug.dosingInterval .amphetamine) = 1 := by
  norm_num [plotNumDoses, numDosesOf, ctrunc, Drug.dosingInterval]

/-- Every sampled point of the amphetamine/oral single-dose curve stays
at most 0.01, far below the 50 ng/mL saliva cutoff. -/
lemma scen2_samples_le (i : ℕ) :
    salivaCurveSample .amphetamine .oral 100 70 28 3 0 i ≤
      Drug.cutoffSaliva .amphetamine := by
  simp only [salivaCurveSample]
  rw [scen2_singleConc, show Drug.cutoffSaliva .amphetamine = 50 from rfl]
  have h := plotSample_le (0.01 : ℝ)
    (calculateDetectionTime .amphetamine .oral 100 70 28 3 0).elimRateSaliva
    (calculateDetectionTime .amphetamine .oral 100 70 28 3 0).absorpt
    (Drug.dosingInterval .amphetamine) 0
    (calculateDetectionTime .amphetamine .oral 100 70 28 3 0).hlSaliva i
    (by norm_num)
    (by rw [scen2_elimS]; norm_num)
  rw [scen2_plotNumDoses] at h
  have h50 : ((1 : ℕ) : ℝ) * 0.01 ≤ 50 := by norm_num
  linarith

/-! ## Shared auxiliary results for the claims -/

/-- Bounds of the clamped buildup percentage produced by the pipeline's
`totalConc / steadyConc * 100` computation, in the generic shape the
pipeline uses for both matrices. -/
lemma buildup_bounds_aux (sc k τ : ℝ) (n : ℤ) (hsc : 0 ≤ sc) (hk : 0 < k)
    (hτ : 0 < τ) (hn : 0 ≤ n) :
    0 ≤ clampBuildup ((sc * accumulationFactor (1 - Real.exp (-k * τ)) n /
        (sc / (1 - Real.exp (-k * τ)))) * 100) ∧
    clampBuildup ((sc * accumulationFactor (1 - Real.exp (-k * τ)) n /
        (sc / (1 - Real.exp (-k * τ)))) * 100) ≤ 100 := by
  have hx : 0 < k * τ := mul_pos hk hτ
  have h1 : 0 < 1 - Real.exp (-(k * τ)) := one_sub_exp_neg_pos _ hx
  have h2 : 1 - Real.exp (-(k * τ)) < 1 := one_sub_exp_neg_lt_one _ hx
  rw [neg_mul] at *
  have hacc : 0 ≤ accumulationFactor (1 - Real.exp (-(k * τ))) n :=
    accumulationFactor_nonneg _ _ h1.le h2 hn
  have harg : 0 ≤ (sc * accumulationFactor (1 - Real.exp (-(k * τ))) n /
      (sc / (1 - Real.exp (-(k * τ))))) * 100 := by positivity
  exact clampBuildup_bounds _ harg

/-- The integer-division decomposition invariant, over any second count. -/
lemma decomposeSeconds_spec (s : ℕ) :
    (decomposeSeconds s).1 * 86400 + (decomposeSeconds s).2.1 * 3600 +
        (decomposeSeconds s).2.2.1 * 60 + (decomposeSeconds s).2.2.2 = s ∧
      (decomposeSeconds s).2.1 ≤ 23 ∧ (decomposeSeconds s).2.2.1 ≤ 59 ∧
      (decomposeSeconds s).2.2.2 ≤ 59 := by
  unfold decomposeSeconds
  simp only []
  omega

/-! ## The claims -/

/-- C1: the Detection-Time Solver returns 0 whenever the total
accumulated concentration is at most the cutoff (never a negative time),
and otherwise returns `ln(totalConc / cutoff) / eliminationRate`, for
every drug/route/input combination and for each matrix (saliva and
urine). -/
theorem C1_detection_time_solver (d : Drug) (rt : Route)
    (dosage weight age metab : ℤ) (duration : ℝ) :
    ((calculateDetectionTime d rt dosage weight age metab duration).totalConcSaliva ≤
        d.cutoffSaliva →
      (calculateDetectionTime d rt dosage weight age metab duration).detectionTimeSaliva =
        0) ∧
    (d.cutoffSaliva <
        (calculateDetectionTime d rt dosage weight age metab duration).totalConcSaliva →
      (calculateDetectionTime d rt dosage weight age metab duration).detectionTimeSaliva =
        Real.log
            ((calculateDetectionTime d rt dosage weight age metab duration).totalConcSaliva /
              d.cutoffSaliva) /
          (calculateDetectionTime d rt dosage weight age metab duration).elimRateSaliva) ∧
    ((calculateDetectionTime d rt dosage weight age metab duration).totalConcUrine ≤
        d.cutoffUrine →
      (calculateDetectionTime d rt dosage weight age metab duration).detectionTimeUrine =
        0) ∧
    (d.cutoffUrine <
        (calculateDetectionTime d rt dosage weight age metab duration).totalConcUrine →
      (calculateDetectionTime d rt dosage weight age metab duration).detectionTimeUrine =
        Real.log
            ((calculateDetectionTime d rt dosage weight age metab duration).totalConcUrine /
              d.cutoffUrine) /
          (calculateDetectionTime d rt dosage weight age metab duration).elimRateUrine) := by
  refine ⟨?_, ?_, ?_, ?_⟩ <;> simp only [calculateDetectionTime] <;> intro h
  · exact solveDetectionTime_of_le _ _ _ h
  · exact solveDetectionTime_of_gt _ _ _ h
  · exact solveDetectionTime_of_le _ _ _ h
  · exact solveDetectionTime_of_gt _ _ _ h

/-- Witness for C1: at the diamorphine/intravenous scenario the saliva
total stays below the cutoff and the solver indeed reports 0. -/
theorem C1_witness :
    (calculateDetectionTime .diamorphine .intravenous 1000 76 28 3
        48).detectionTimeSaliva = 0 :=
  (C1_detection_time_solver .diamorphine .intravenous 1000 76 28 3 48).1
    (by rw [show Drug.cutoffSaliva .diamorphine = 2 from rfl]
        exact scen1_totalS_lt.le)

/-- C2: the Accumulation Engine computes
`numDoses = floor(duration/interval) + 1`,
`r = 1 - exp(-eliminationRate * interval)`, the degenerate branch
`accumulationFactor = numDoses` when `|r - 1| < 1e-3` and the geometric
sum `(1 - r^numDoses)/(1 - r)` otherwise, and
`totalConc = singleDoseConc * accumulationFactor`, in both matrices
(dosing interval and elimination rate are positive throughout the table;
a non-negative usage duration is the data model's precondition). -/
theorem C2_accumulation_engine (d : Drug) (rt : Route)
    (dosage weight age metab : ℤ) (duration : ℝ) (hd : 0 ≤ duration) :
    (calculateDetectionTime d rt dosage weight age metab duration).numDoses =
        ⌊duration / d.dosingInterval⌋ + 1 ∧
    (calculateDetectionTime d rt dosage weight age metab duration).rFactorSaliva =
        1 - Real.exp
          (-(calculateDetectionTime d rt dosage weight age metab duration).elimRateSaliva *
            d.dosingInterval) ∧
    (calculateDetectionTime d rt dosage weight age metab duration).accumFactorSaliva =
        (if |(calculateDetectionTime d rt dosage weight age metab duration).rFactorSaliva -
              1| < 0.001 then
          ((calculateDetectionTime d rt dosage weight age metab duration).numDoses : ℝ)
        else
          (1 - (calculateDetectionTime d rt dosage weight age metab
                duration).rFactorSaliva ^
              (calculateDetectionTime d rt dosage weight age metab
                duration).numDoses.toNat) /
            (1 - (calculateDetectionTime d rt dosage weight age metab
                duration).rFactorSaliva)) ∧
    (calculateDetectionTime d rt dosage weight age metab duration).totalConcSaliva =
        (calculateDetectionTime d rt dosage weight age metab duration).singleConcSaliva *
          (calculateDetectionTime d rt dosage weight age metab duration).accumFactorSaliva ∧
    (calculateDetectionTime d rt dosage weight age metab duration).rFactorUrine =
        1 - Real.exp
          (-(calculateDetectionTime d rt dosage weight age metab duration).elimRateUrine *
            d.dosingInterval) ∧
    (calculateDetectionTime d rt dosage weight age metab duration).accumFactorUrine =
        (if |(calculateDetectionTime d rt dosage weight age metab duration).rFactorUrine -
              1| < 0.001 then
          ((calculateDetectionTime d rt dosage weight age metab duration).numDoses : ℝ)
        else
          (1 - (calculateDetectionTime d rt dosage weight age metab
                duration).rFactorUrine ^
              (calculateDetectionTime d rt dosage weight age metab
                duration).numDoses.toNat) /
            (1 - (calculateDetectionTime d rt dosage weight age metab
                duration).rFactorUrine)) ∧
    (calculateDetectionTime d rt dosage weight age metab duration).totalConcUrine =
        (calculateDetectionTime d rt dosage weight age metab duration).singleConcUrine *
          (calculateDetectionTime d rt dosage weight age metab duration).accumFactorUrine := by
  refine ⟨?_, rfl, ?_, rfl, rfl, ?_, rfl⟩
  · simp only [calculateDetectionTime, numDosesOf]
    rw [ctrunc_eq_floor _ (div_nonneg hd (dosingInterval_pos d).le)]
  · simp only [calculateDetectionTime, accumulationFactor]
  · simp only [calculateDetectionTime, accumulationFactor]

/-- Witness for C2: the dose count of the diamorphine scenario is
`floor(48/4) + 1 = 13`. -/
theorem C2_witness :
    (calculateDetectionTime .diamorphine .intravenous 1000 76 28 3 48).numDoses =
      ⌊(48 : ℝ) / Drug.dosingInterval .diamorphine⌋ + 1 :=
  (C2_accumulation_engine .diamorphine .intravenous 1000 76 28 3 48 (by norm_num)).1


/-- C3: the Dose-Response Calculator produces
`dosageMg * oralTransferFactor * bioavailability / weightKg` for every
drug except two special cases: for fentanyl the user dosage is ignored
and replaced by the fixed dose constant equivalent to 1000 mg (so the
result is the same for any two dosage inputs), and for alcohol the
generic result is additionally multiplied by 0.5; precondition
`weightKg > 0`. -/
theorem C3_dose_response (d : Drug) (rt : Route)
    (dosage dosA dosB weight age metab : ℤ) (duration : ℝ) (hw : 0 < weight) :
    (d ≠ .fentanyl → d ≠ .alcohol →
      singleDoseConc d dosage weight
          (adjustRouteParameters d rt (baseParams rt)).oralFac
          (adjustRouteParameters d rt (baseParams rt)).bioavail =
        (dosage : ℝ) * (adjustRouteParameters d rt (baseParams rt)).oralFac *
          (adjustRouteParameters d rt (baseParams rt)).bioavail / (weight : ℝ)) ∧
    (singleDoseConc .fentanyl dosA weight
        (adjustRouteParameters .fentanyl rt (baseParams rt)).oralFac
        (adjustRouteParameters .fentanyl rt (baseParams rt)).bioavail =
      singleDoseConc .fentanyl dosB weight
        (adjustRouteParameters .fentanyl rt (baseParams rt)).oralFac
        (adjustRouteParameters .fentanyl rt (baseParams rt)).bioavail) ∧
    (singleDoseConc .fentanyl dosage weight
        (adjustRouteParameters .fentanyl rt (baseParams rt)).oralFac
        (adjustRouteParameters .fentanyl rt (baseParams rt)).bioavail =
      fentanylDoseConstant * 1000 *
          (adjustRouteParameters .fentanyl rt (baseParams rt)).oralFac *
          (adjustRouteParameters .fentanyl rt (baseParams rt)).bioavail / (weight : ℝ)) ∧
    (singleDoseConc .alcohol dosage weight
        (adjustRouteParameters .alcohol rt (baseParams rt)).oralFac
        (adjustRouteParameters .alcohol rt (baseParams rt)).bioavail =
      ((dosage : ℝ) * (adjustRouteParameters .alcohol rt (baseParams rt)).oralFac *
          (adjustRouteParameters .alcohol rt (baseParams rt)).bioavail / (weight : ℝ)) *
        0.5) ∧
    ((calculateDetectionTime d rt dosage weight age metab duration).singleConcSaliva =
      singleDoseConc d dosage weight
        (adjustRouteParameters d rt (baseParams rt)).oralFac
        (adjustRouteParameters d rt (baseParams rt)).bioavail) := by
  refine ⟨?_, ?_, ?_, ?_, ?_⟩
  · intro h1 h2
    unfold singleDoseConc
    rw [if_neg h1, if_neg h2]
  · simp [singleDoseConc]
  · simp [singleDoseConc]
  · simp [singleDoseConc]
    ring
  · simp only [calculateDetectionTime]

/-- Witness for C3: the fentanyl dose-response at 1 mg and at 500 mg
coincide (IV route, 70 kg). -/
theorem C3_witness :
    singleDoseConc .fentanyl 1 70
        (adjustRouteParameters .fentanyl .intravenous (baseParams .intravenous)).oralFac
        (adjustRouteParameters .fentanyl .intravenous (baseParams .intravenous)).bioavail =
      singleDoseConc .fentanyl 500 70
        (adjustRouteParameters .fentanyl .intravenous (baseParams .intravenous)).oralFac
        (adjustRouteParameters .fentanyl .intravenous (baseParams .intravenous)).bioavail :=
  (C3_dose_response .fentanyl .intravenous 100 1 500 70 30 2 24 (by norm_num)).2.1

/-- C4: for every valid input the reported buildup percentage
`(totalConc / steadyStateConc) * 100`, clamped from above at 100, lies in
the closed interval [0, 100]; the lower bound follows from
non-negativity of the concentrations, in both matrices. -/
theorem C4_buildup_in_range (d : Drug) (rt : Route)
    (dosage weight age metab : ℤ) (duration : ℝ)
    (hdos : 0 < dosage) (hw : 0 < weight) (hd : 0 ≤ duration) :
    0 ≤ (calculateDetectionTime d rt dosage weight age metab duration).buildupSaliva ∧
    (calculateDetectionTime d rt dosage weight age metab duration).buildupSaliva ≤ 100 ∧
    0 ≤ (calculateDetectionTime d rt dosage weight age metab duration).buildupUrine ∧
    (calculateDetectionTime d rt dosage weight age metab duration).buildupUrine ≤ 100 := by
  obtain ⟨hb, hof, ha⟩ :=
    adjustRouteParameters_pos d rt (baseParams rt) (baseParams_pos rt)
  have hsc : 0 ≤ singleDoseConc d dosage weight
      (adjustRouteParameters d rt (baseParams rt)).oralFac
      (adjustRouteParameters d rt (baseParams rt)).bioavail :=
    (singleDoseConc_pos d dosage weight _ _ hdos hw hof hb).le
  have hτ := dosingInterval_pos d
  have hks : 0 < 0.693 / flipflop d.halflifeSaliva
      (adjustRouteParameters d rt (baseParams rt)).absorpt *
        ageFactor age * metabFactor metab :=
    mul_pos (mul_pos (div_pos (by norm_num)
      (flipflop_pos _ _ (halflifeSaliva_pos d) ha)) (ageFactor_pos age))
      (metabFactor_pos metab)
  have hku : 0 < 0.693 / flipflop d.halflifeUrine
      (adjustRouteParameters d rt (baseParams rt)).absorpt *
        ageFactor age * metabFactor metab :=
    mul_pos (mul_pos (div_pos (by norm_num)
      (flipflop_pos _ _ (halflifeUrine_pos d) ha)) (ageFactor_pos age))
      (metabFactor_pos metab)
  have hn : 0 ≤ numDosesOf duration d.dosingInterval :=
    le_trans (by norm_num) (numDosesOf_ge_one duration d.dosingInterval hd hτ)
  have hS := buildup_bounds_aux _ _ _ _ hsc hks hτ hn
  have hU := buildup_bounds_aux _ _ _ _ hsc hku hτ hn
  simp only [calculateDetectionTime]
  exact ⟨hS.1, hS.2, hU.1, hU.2⟩

/-- Witness for C4: the buildup percentage of the diamorphine scenario is
in range. -/
theorem C4_witness :
    0 ≤ (calculateDetectionTime .diamorphine .intravenous 1000 76 28 3
        48).buildupSaliva ∧
    (calculateDetectionTime .diamorphine .intravenous 1000 76 28 3
        48).buildupSaliva ≤ 100 ∧
    0 ≤ (calculateDetectionTime .diamorphine .intravenous 1000 76 28 3
        48).buildupUrine ∧
    (calculateDetectionTime .diamorphine .intravenous 1000 76 28 3
        48).buildupUrine ≤ 100 :=
  C4_buildup_in_range .diamorphine .intravenous 1000 76 28 3 48
    (by norm_num) (by norm_num) (by norm_num)

/-- C7: for every fixed drug, route, dosage, weight, age and metabolism
class, increasing the usage duration (non-negative) never decreases the
accumulation factor or the total accumulated concentration, in either
matrix. -/
theorem C7_duration_monotone (d : Drug) (rt : Route)
    (dosage weight age metab : ℤ) (dur1 dur2 : ℝ)
    (hdos : 0 ≤ dosage) (hw : 0 ≤ weight) (h1 : 0 ≤ dur1) (h12 : dur1 ≤ dur2) :
    (calculateDetectionTime d rt dosage weight age metab dur1).accumFactorSaliva ≤
        (calculateDetectionTime d rt dosage weight age metab dur2).accumFactorSaliva ∧
    (calculateDetectionTime d rt dosage weight age metab dur1).totalConcSaliva ≤
        (calculateDetectionTime d rt dosage weight age metab dur2).totalConcSaliva ∧
    (calculateDetectionTime d rt dosage weight age metab dur1).accumFactorUrine ≤
        (calculateDetectionTime d rt dosage weight age metab dur2).accumFactorUrine ∧
    (calculateDetectionTime d rt dosage weight age metab dur1).totalConcUrine ≤
        (calculateDetectionTime d rt dosage weight age metab dur2).totalConcUrine := by
  obtain ⟨hb, hof, ha⟩ :=
    adjustRouteParameters_pos d rt (baseParams rt) (baseParams_pos rt)
  have hsc : 0 ≤ singleDoseConc d dosage weight
      (adjustRouteParameters d rt (baseParams rt)).oralFac
      (adjustRouteParameters d rt (baseParams rt)).bioavail :=
    singleDoseConc_nonneg d dosage weight _ _ hdos hw hof.le hb.le
  have hτ := dosingInterval_pos d
  have hks : 0 < 0.693 / flipflop d.halflifeSaliva
      (adjustRouteParameters d rt (baseParams rt)).absorpt *
        ageFactor age * metabFactor metab :=
    mul_pos (mul_pos (div_pos (by norm_num)
      (flipflop_pos _ _ (halflifeSaliva_pos d) ha)) (ageFactor_pos age))
      (metabFactor_pos metab)
  have hku : 0 < 0.693 / flipflop d.halflifeUrine
      (adjustRouteParameters d rt (baseParams rt)).absorpt *
        ageFactor age * metabFactor metab :=
    mul_pos (mul_pos (div_pos (by norm_num)
      (flipflop_pos _ _ (halflifeUrine_pos d) ha)) (ageFactor_pos age))
      (metabFactor_pos metab)
  have hn := numDosesOf_mono dur1 dur2 d.dosingInterval h1 h12 hτ
  have hxs : 0 < 0.693 / flipflop d.halflifeSaliva
      (adjustRouteParameters d rt (baseParams rt)).absorpt *
        ageFactor age * metabFactor metab * d.dosingInterval := mul_pos hks hτ
  have hxu : 0 < 0.693 / flipflop d.halflifeUrine
      (adjustRouteParameters d rt (baseParams rt)).absorpt *
        ageFactor age * metabFactor metab * d.dosingInterval := mul_pos hku hτ
  have hrs0 := one_sub_exp_neg_pos _ hxs
  have hrs1 := one_sub_exp_neg_lt_one _ hxs
  have hru0 := one_sub_exp_neg_pos _ hxu
  have hru1 := one_sub_exp_neg_lt_one _ hxu
  rw [← neg_mul] at hrs0 hrs1 hru0 hru1
  have haccS := accumulationFactor_mono _
    (numDosesOf dur1 d.dosingInterval) (numDosesOf dur2 d.dosingInterval)
    hrs0.le hrs1 hn
  have haccU := accumulationFactor_mono _
    (numDosesOf dur1 d.dosingInterval) (numDosesOf dur2 d.dosingInterval)
    hru0.le hru1 hn
  simp only [calculateDetectionTime]
  exact ⟨haccS, mul_le_mul_of_nonneg_left haccS hsc,
    haccU, mul_le_mul_of_nonneg_left haccU hsc⟩

/-- Witness for C7: going from 24 to 48 hours of use does not decrease
the accumulated diamorphine concentration. -/
theorem C7_witness :
    (calculateDetectionTime .diamorphine .intravenous 1000 76 28 3
        24).totalConcSaliva ≤
      (calculateDetectionTime .diamorphine .intravenous 1000 76 28 3
        48).totalConcSaliva :=
  (C7_duration_monotone .diamorphine .intravenous 1000 76 28 3 24 48
    (by norm_num) (by norm_num) (by norm_num) (by norm_num)).2.1

/-- C8: for every non-negative detection time, truncating
`detectionTimeHours * 3600` to a whole second count and decomposing it
into days, hours, minutes and seconds satisfies
`d*86400 + h*3600 + m*60 + s = original second count`, with hours in
0..23 and minutes and seconds in 0..59. -/
theorem C8_seconds_roundtrip (t : ℝ) (ht : 0 ≤ t) :
    (decomposeSeconds (totalSeconds t)).1 * 86400 +
        (decomposeSeconds (totalSeconds t)).2.1 * 3600 +
        (decomposeSeconds (totalSeconds t)).2.2.1 * 60 +
        (decomposeSeconds (totalSeconds t)).2.2.2 = totalSeconds t ∧
      (decomposeSeconds (totalSeconds t)).2.1 ≤ 23 ∧
      (decomposeSeconds (totalSeconds t)).2.2.1 ≤ 59 ∧
      (decomposeSeconds (totalSeconds t)).2.2.2 ≤ 59 :=
  decomposeSeconds_spec (totalSeconds t)

/-- Witness for C8: the round-trip at a detection time of 26.5 hours. -/
theorem C8_witness :
    (decomposeSeconds (totalSeconds 26.5)).1 * 86400 +
        (decomposeSeconds (totalSeconds 26.5)).2.1 * 3600 +
        (decomposeSeconds (totalSeconds 26.5)).2.2.1 * 60 +
        (decomposeSeconds (totalSeconds 26.5)).2.2.2 = totalSeconds 26.5 ∧
      (decomposeSeconds (totalSeconds 26.5)).2.1 ≤ 23 ∧
      (decomposeSeconds (totalSeconds 26.5)).2.2.1 ≤ 59 ∧
      (decomposeSeconds (totalSeconds 26.5)).2.2.2 ≤ 59 :=
  C8_seconds_roundtrip 26.5 (by norm_num)

/-- C9: drug and route name resolution returns either a valid identifier
(drug in 1..24, route in 1..11, via the primary names or the documented
synonyms and abbreviations) or the sentinel 0, and a sentinel from either
resolver makes the program reject the input and exit without performing
any part of the detection-time calculation. -/
theorem C9_name_resolution (dIn rIn : List Char)
    (dosage weight age metab : ℤ) (duration : ℝ) :
    (getDrugSelection dIn = 0 ∨
      (1 ≤ getDrugSelection dIn ∧ getDrugSelection dIn ≤ 24)) ∧
    (getRouteSelection rIn = 0 ∨
      (1 ≤ getRouteSelection rIn ∧ getRouteSelection rIn ≤ 11)) ∧
    (getDrugSelection dIn = 0 →
      runProgram dIn rIn dosage weight age metab duration = none) ∧
    (getRouteSelection rIn = 0 →
      runProgram dIn rIn dosage weight age metab duration = none) := by
  refine ⟨?_, ?_, ?_, ?_⟩
  · unfold getDrugSelection
    cases h : drugNameTable.find? (fun e => upperEq dIn e.1) with
    | none => exact Or.inl rfl
    | some e =>
        refine Or.inr ?_
        have hm := List.mem_of_find?_eq_some h
        have hall : ∀ x ∈ drugNameTable, 1 ≤ x.2 ∧ x.2 ≤ 24 := by decide
        exact hall e hm
  · unfold getRouteSelection
    cases h : routeNameTable.find? (fun e => upperEq rIn e.1) with
    | none => exact Or.inl rfl
    | some e =>
        refine Or.inr ?_
        have hm := List.mem_of_find?_eq_some h
        have hall : ∀ x ∈ routeNameTable, 1 ≤ x.2 ∧ x.2 ≤ 11 := by decide
        exact hall e hm
  · intro h0
    unfold runProgram
    rw [h0]
    rfl
  · intro h0
    unfold runProgram
    rw [h0]
    cases drugOfCode (getDrugSelection dIn) <;> rfl

/-- Witness for C9: "HEROIN" resolves to diamorphine (24), and an unknown
drug name makes the whole run reject. -/
theorem C9_witness :
    getDrugSelection "HEROIN".data = 24 ∧
      runProgram "PLUTONIUM".data "IV".data 100 70 28 2 24 = none :=
  ⟨by decide,
    (C9_name_resolution "PLUTONIUM".data "IV".data 100 70 28 2 24).2.2.1 (by decide)⟩

/-- C10: if the summed spectrum intensity is everywhere zero, the
normalizing maximum is replaced by 1.0, so the per-row threshold is
positive and no peak marker is drawn on any of the 50 rendered rows. -/
theorem C10_spectrum_zero_safe (peaks : List NMRPeak) (conc : ℝ)
    (h : ∀ i ∈ Finset.range 121, spectrumAt peaks conc i = 0) :
    specMaxAdj peaks conc = 1 ∧
      ∀ line i : ℕ, 1 ≤ line → line ≤ 50 → i ∈ Finset.range 121 →
        ¬ starAt peaks conc line i := by
  have hmax : specMax0 peaks conc = 0 := by
    apply le_antisymm
    · exact (Finset.fold_max_le (0 : ℝ)).mpr ⟨le_refl 0, fun i hi => (h i hi).le⟩
    · exact (Finset.le_fold_max (0 : ℝ)).mpr (Or.inl (le_refl 0))
  have hadj : specMaxAdj peaks conc = 1 := by
    unfold specMaxAdj
    rw [hmax]
    norm_num
  refine ⟨hadj, fun line i h1 h50 hi => ?_⟩
  unfold starAt
  rw [hadj, h i hi]
  push_neg
  have hl : (0 : ℝ) < (line : ℝ) := by exact_mod_cast h1.trans_lt' (by norm_num)
  positivity

/-- Witness for C10: the generic three-peak table at display
concentration 0 yields an everywhere-zero spectrum, the maximum is
replaced by 1 and no row draws a marker. -/
theorem C10_witness :
    specMaxAdj genericPeaks 0 = 1 ∧
      ∀ line i : ℕ, 1 ≤ line → line ≤ 50 → i ∈ Finset.range 121 →
        ¬ starAt genericPeaks 0 line i :=
  C10_spectrum_zero_safe genericPeaks 0 (by
    intro i _
    simp [spectrumAt, genericPeaks])

/-- C5 counterexample: for amphetamine taken orally (100 mg, 70 kg,
age 28, fast metabolism, duration 0) every sampled concentration stays
below the 50 ng/mL cutoff, yet the renderer does not print the
below-cutoff message, because its scale variable is clamped to at least
`cutoff * 2` before the `cmax > cutoff` test. -/
theorem C5_counterexample :
    (∀ i ∈ Finset.range 61,
      salivaCurveSample .amphetamine .oral 100 70 28 3 0 i ≤
        Drug.cutoffSaliva .amphetamine) ∧
    ¬ salivaBelowCutoffMessage .amphetamine .oral 100 70 28 3 0 := by
  constructor
  · intro i _
    exact scen2_samples_le i
  · simp only [salivaBelowCutoffMessage, belowCutoffMessage]
    exact not_not_intro (plotCmax_gt_cutoff _ _ _ _ _ _ _
      (cutoffSaliva_pos .amphetamine))

/-- C5 (amended): the below-cutoff message is never printed (every
cutoff in the table is positive, and the scale is clamped to at least
`cutoff * 2 > cutoff` before the test); when no sampled concentration
exceeds the cutoff the analysis path still runs and reports a time of 0 —
a defined, non-negative time, not the below-cutoff message. -/
theorem C5_below_cutoff_analysis (d : Drug) (rt : Route)
    (dosage weight age metab : ℤ) (duration : ℝ) :
    ¬ salivaBelowCutoffMessage d rt dosage weight age metab duration ∧
    ((∀ i ∈ Finset.range 61,
        salivaCurveSample d rt dosage weight age metab duration i ≤ d.cutoffSaliva) →
      salivaAnalysisTime d rt dosage weight age metab duration = 0) := by
  constructor
  · simp only [salivaBelowCutoffMessage, belowCutoffMessage]
    exact not_not_intro (plotCmax_gt_cutoff _ _ _ _ _ _ _ (cutoffSaliva_pos d))
  · intro h
    simp only [salivaCurveSample] at h
    simp only [salivaAnalysisTime]
    exact analysisTime_eq_zero _ _ _ _ _ _ _ h

/-- Witness for C5's amended statement: the amphetamine scenario's
reported analysis time is 0, not a negative or undefined value. -/
theorem C5_witness :
    salivaAnalysisTime .amphetamine .oral 100 70 28 3 0 = 0 :=
  (C5_below_cutoff_analysis .amphetamine .oral 100 70 28 3 0).2
    (fun i _ => scen2_samples_le i)

/-- C6 counterexample: at drug=diamorphine, route=intravenous,
dosage=1000 mg, weight=76 kg, age=28, metabolism=fast, duration=48 h the
code's elimination rates are below 1/hr in both matrices (not ≈5.74/hr)
and both detection times are 0 seconds (not ≈197 s). -/
theorem C6_counterexample :
    (calculateDetectionTime .diamorphine .intravenous 1000 76 28 3
        48).elimRateSaliva < 1 ∧
    (calculateDetectionTime .diamorphine .intravenous 1000 76 28 3
        48).elimRateUrine < 1 ∧
    (calculateDetectionTime .diamorphine .intravenous 1000 76 28 3
        48).detectionTimeSaliva * 3600 = 0 ∧
    (calculateDetectionTime .diamorphine .intravenous 1000 76 28 3
        48).detectionTimeUrine * 3600 = 0 := by
  refine ⟨?_, ?_, ?_, ?_⟩
  · rw [scen1_elimS]
    norm_num
  · rw [scen1_elimU]
    norm_num
  · rw [scen1_detS]
    ring
  · rw [scen1_detU]
    ring

/-- C6 (amended): at the scenario's inputs the code resolves
bioavailability 1.0 and oral factor 0.08 and computes single-dose
concentration 20/19 ≈ 1.05 ng/mL and 13 doses as claimed, but the
elimination rates are 0.13946625/hr (saliva) and 0.04648875/hr (urine),
the saliva accumulation factor stays below 1.9, both total
concentrations stay below their cutoffs (2 ng/mL saliva, 10 ng/mL
urine), and both detection times are exactly 0. -/
theorem C6_scenario_actual :
    (calculateDetectionTime .diamorphine .intravenous 1000 76 28 3 48).bioavail = 1 ∧
    (calculateDetectionTime .diamorphine .intravenous 1000 76 28 3 48).oralFac = 0.08 ∧
    (calculateDetectionTime .diamorphine .intravenous 1000 76 28 3
        48).singleConcSaliva = 20 / 19 ∧
    (calculateDetectionTime .diamorphine .intravenous 1000 76 28 3 48).numDoses = 13 ∧
    (calculateDetectionTime .diamorphine .intravenous 1000 76 28 3
        48).elimRateSaliva = 0.13946625 ∧
    (calculateDetectionTime .diamorphine .intravenous 1000 76 28 3
        48).elimRateUrine = 0.04648875 ∧
    (calculateDetectionTime .diamorphine .intravenous 1000 76 28 3
        48).accumFactorSaliva < 1.9 ∧
    (calculateDetectionTime .diamorphine .intravenous 1000 76 28 3
        48).totalConcSaliva < 2 ∧
    (calculateDetectionTime .diamorphine .intravenous 1000 76 28 3
        48).totalConcUrine < 10 ∧
    (calculateDetectionTime .diamorphine .intravenous 1000 76 28 3
        48).detectionTimeSaliva = 0 ∧
    (calculateDetectionTime .diamorphine .intravenous 1000 76 28 3
        48).detectionTimeUrine = 0 :=
  ⟨scen1_bioavail, scen1_oralFac, scen1_singleConc, scen1_numDoses, scen1_elimS,
    scen1_elimU, by rw [scen1_accumS]; exact accumS_lt, scen1_totalS_lt,
    scen1_totalU_lt, scen1_detS, scen1_detU⟩

end NarcDetect
